import Mathlib

/-!
Verification of the PostureCare firmware (`ProyectoIntegrador.c`).

The file embeds the firmware's pure logic in Lean:
* float values are modelled as exact rationals (`ℚ`) where only field
  operations occur, and as reals (`ℝ`) where `sqrtf`/`acosf` appear;
* the machine integers `uint8_t`, `uint16_t` and `uint32_t` are modelled
  as `Nat` with explicit reduction modulo `2^16` / `2^32` at the points
  where the C code can overflow;
* each FreeRTOS task body is embedded as a step function on an explicit
  state record, iterated over a list (or a count) of inputs.
-/

namespace PostureCare

/-- Constant `PERIODO_MUESTREO_AC = 1000`: sampling period in ms. -/
def PERIODO_MUESTREO_AC : Nat := 1000

/-- Constant `UMBRAL_INCLINACION = 12.0f`: inclination threshold in degrees. -/
def UMBRAL_INCLINACION : ℚ := 12

/-- Constant `TIEMPO_ADVERTENCIA = 3000`: warning time in ms. -/
def TIEMPO_ADVERTENCIA : Nat := 3000

/-- Constant `TIEMPO_ALERTA = 5000`: alert time in ms. -/
def TIEMPO_ALERTA : Nat := 5000

/-- Constant `TIEMPO_CALIBRACION = 3000`: initial calibration window in ms. -/
def TIEMPO_CALIBRACION : Nat := 3000

/-- Modulus of the C type `uint16_t` (the type of `muestras`). -/
def UINT16_MOD : Nat := 65536

/-- Modulus of the C type `uint32_t` (the type of `bad_posture_time`). -/
def UINT32_MOD : Nat := 4294967296

/-- FreeRTOS `pdMS_TO_TICKS`, parameterised by `configTICK_RATE_HZ`:
`(ms * configTICK_RATE_HZ) / 1000` with integer division. -/
def pdMS_TO_TICKS (hz ms : Nat) : Nat := ms * hz / 1000

/-- The argument the sampler task passes to `vTaskDelay`:
the source writes `vTaskDelay(1000 / PERIODO_MUESTREO_AC)`. -/
def delayArg_LeerAcelerometro : Nat := 1000 / PERIODO_MUESTREO_AC

/-- Smoothing filter `FiltroSuavizado`: `(0.8f * previo) + (0.2f * nuevo)`. -/
def FiltroSuavizado (nuevo previo : ℚ) : ℚ := 0.8 * previo + 0.2 * nuevo

/-- The classifier's shared state: `posture_state` (`uint8_t`,
0 = correct, 1 = warning, 2 = alert) and `bad_posture_time`
(`uint32_t`, accumulated ms in bad posture). -/
structure PosturaState where
  posture_state : Nat
  bad_posture_time : Nat
deriving DecidableEq, Repr

/-- Initial values of the shared variables: `posture_state = 0`,
`bad_posture_time = 0`. -/
def posturaInit : PosturaState := ⟨0, 0⟩

/-- One iteration of the loop body of the `ProcesarPostura` task.
`calibrado` and `angulo` are the values of the shared variables read
during this iteration.  Mirrors the source: when calibrated and
`fabs(angulo) > UMBRAL_INCLINACION`, add `PERIODO_MUESTREO_AC` to
`bad_posture_time` (a `uint32_t`, hence the reduction mod `2^32`), then
escalate the state by the `TIEMPO_ALERTA` / `TIEMPO_ADVERTENCIA`
comparisons; otherwise reset both to zero.  When not calibrated the
iteration changes nothing. -/
def ProcesarPosturaStep (calibrado : Bool) (angulo : ℚ) (s : PosturaState) : PosturaState :=
  if calibrado then
    if |angulo| > UMBRAL_INCLINACION then
      let t := (s.bad_posture_time + PERIODO_MUESTREO_AC) % UINT32_MOD
      if t ≥ TIEMPO_ALERTA then ⟨2, t⟩
      else if t ≥ TIEMPO_ADVERTENCIA then ⟨1, t⟩
      else ⟨s.posture_state, t⟩
    else ⟨0, 0⟩
  else s

/-- Sequential run of the classifier after calibration: one evaluation
tick per angle in the list, starting from the initial shared state. -/
def procesarRun (l : List ℚ) : PosturaState :=
  l.foldl (fun s a => ProcesarPosturaStep true a s) posturaInit

/-- Sequential run of the classifier where each tick also carries the
value of the `calibrado` flag it observes. -/
def procesarRunC (l : List (Bool × ℚ)) : PosturaState :=
  l.foldl (fun s p => ProcesarPosturaStep p.1 p.2 s) posturaInit

/-- Number of over-threshold ticks in an input sequence
(ticks on which `fabs(angulo) > UMBRAL_INCLINACION`). -/
def overCount (l : List ℚ) : Nat :=
  l.countP (fun a => decide (|a| > UMBRAL_INCLINACION))

/-- The state/duration correspondence asserted of the classifier:
`Correct` iff the accumulated time is below the warning time, `Warning`
iff it is between warning and alert time, `Alert` iff at or above the
alert time. -/
def postureInv (s : PosturaState) : Prop :=
  (s.posture_state = 0 ↔ s.bad_posture_time < TIEMPO_ADVERTENCIA) ∧
  (s.posture_state = 1 ↔ TIEMPO_ADVERTENCIA ≤ s.bad_posture_time ∧
      s.bad_posture_time < TIEMPO_ALERTA) ∧
  (s.posture_state = 2 ↔ TIEMPO_ALERTA ≤ s.bad_posture_time)

instance (s : PosturaState) : Decidable (postureInv s) := by
  unfold postureInv
  infer_instance

/-- Function `CalcularAnguloDesviacion`, over the reals.  The C function reads
the globals `base_x`, `base_y`, `base_z`; here they are passed as the
first three arguments.  It computes the dot product of the current and
reference vectors, both magnitudes, the quotient `cos_theta`, clamps it
into `[-1, 1]` with two successive `if`s, and converts
`acosf(cos_theta)` from radians to degrees with the literal
approximation `180.0f / 3.14159f`. -/
noncomputable def CalcularAnguloDesviacion (base_x base_y base_z ax ay az : ℝ) : ℝ :=
  let dot := ax * base_x + ay * base_y + az * base_z
  let mag_base := Real.sqrt (base_x * base_x + base_y * base_y + base_z * base_z)
  let mag_actual := Real.sqrt (ax * ax + ay * ay + az * az)
  let cos_theta := dot / (mag_base * mag_actual)
  let cos_theta1 := if cos_theta > 1 then 1 else cos_theta
  let cos_theta2 := if cos_theta1 < -1 then -1 else cos_theta1
  Real.arccos cos_theta2 * (180 / 3.14159)

/-- State touched by the `LeerAcelerometro` task: the shared
`datos_acelerometro` record (smoothed values and last angle), the local
calibration accumulator (`suma_x/y/z` and the `uint16_t` counter
`muestras`), and the shared calibration results `base_x/y/z` and
`calibrado`. -/
structure SamplerState where
  datos_ax : ℚ
  datos_ay : ℚ
  datos_az : ℚ
  angulo : ℚ
  suma_x : ℚ
  suma_y : ℚ
  suma_z : ℚ
  muestras : Nat
  base_x : ℚ
  base_y : ℚ
  base_z : ℚ
  calibrado : Bool
deriving DecidableEq, Repr

/-- Initial sampler state: `datos_acelerometro = {0}`, the local
accumulator starts at zero, the calibration globals start at zero and
`calibrado = false`. -/
def samplerInit : SamplerState :=
  { datos_ax := 0, datos_ay := 0, datos_az := 0, angulo := 0,
    suma_x := 0, suma_y := 0, suma_z := 0, muestras := 0,
    base_x := 0, base_y := 0, base_z := 0, calibrado := false }

/-- One iteration of the loop body of the `LeerAcelerometro` task.
`raw` is this iteration's `(ReadXValue(), ReadYValue(), ReadZValue())`,
`now` the value of `xTaskGetTickCount()` inside the iteration,
`start_time` the tick count captured before the loop, and `hz` the
FreeRTOS `configTICK_RATE_HZ` used by `pdMS_TO_TICKS`.

The irrational angle computation is kept abstract through `anguloFn`
(given the reference vector and the freshly smoothed vector it returns
the stored float angle); its exact-real counterpart is
`CalcularAnguloDesviacion` above.  Every other float operation of the
body — smoothing, accumulation, the mean — is exact field arithmetic
and is embedded over `ℚ`.  `muestras` is a `uint16_t`, hence the
increment reduces mod `2^16`. -/
def LeerAcelerometroStep (hz : Nat) (anguloFn : ℚ × ℚ × ℚ → ℚ × ℚ × ℚ → ℚ)
    (start_time now : Nat) (raw : ℚ × ℚ × ℚ) (s : SamplerState) : SamplerState :=
  let ax := FiltroSuavizado raw.1 s.datos_ax
  let ay := FiltroSuavizado raw.2.1 s.datos_ay
  let az := FiltroSuavizado raw.2.2 s.datos_az
  if s.calibrado = false then
    let suma_x := s.suma_x + ax
    let suma_y := s.suma_y + ay
    let suma_z := s.suma_z + az
    let muestras := (s.muestras + 1) % UINT16_MOD
    if now - start_time ≥ pdMS_TO_TICKS hz TIEMPO_CALIBRACION then
      { datos_ax := ax, datos_ay := ay, datos_az := az, angulo := s.angulo,
        suma_x := suma_x, suma_y := suma_y, suma_z := suma_z, muestras := muestras,
        base_x := suma_x / (muestras : ℚ), base_y := suma_y / (muestras : ℚ),
        base_z := suma_z / (muestras : ℚ), calibrado := true }
    else
      { datos_ax := ax, datos_ay := ay, datos_az := az, angulo := s.angulo,
        suma_x := suma_x, suma_y := suma_y, suma_z := suma_z, muestras := muestras,
        base_x := s.base_x, base_y := s.base_y, base_z := s.base_z,
        calibrado := false }
  else
    { datos_ax := ax, datos_ay := ay, datos_az := az,
      angulo := anguloFn (s.base_x, s.base_y, s.base_z) (ax, ay, az),
      suma_x := s.suma_x, suma_y := s.suma_y, suma_z := s.suma_z,
      muestras := s.muestras,
      base_x := s.base_x, base_y := s.base_y, base_z := s.base_z,
      calibrado := true }

/-- Iterated sampler: `n` iterations of the `LeerAcelerometro` loop: iteration `i`
(`i < n`) reads the raw sample `raws i` at tick count `ticks i`. -/
def LeerAcelerometroRun (hz : Nat) (anguloFn : ℚ × ℚ × ℚ → ℚ × ℚ × ℚ → ℚ)
    (start_time : Nat) (raws : Nat → ℚ × ℚ × ℚ) (ticks : Nat → Nat) :
    Nat → SamplerState
  | 0 => samplerInit
  | n + 1 =>
      LeerAcelerometroStep hz anguloFn start_time (ticks n) (raws n)
        (LeerAcelerometroRun hz anguloFn start_time raws ticks n)

/-- Discrete outputs driven by `ActualizarIndicadores`:
the three LEDs and the buzzer. -/
structure IndicatorOutput where
  led1 : Bool
  led2 : Bool
  led3 : Bool
  buzzer : Bool
deriving DecidableEq, Repr

/-- The `switch (posture_state)` of the `ActualizarIndicadores` task:
case 0 → green only, case 1 → yellow only, case 2 → red plus buzzer,
`default` → no output change (modelled as `none`). -/
def ActualizarIndicadoresSwitch (s : Nat) : Option IndicatorOutput :=
  match s with
  | 0 => some { led1 := true, led2 := false, led3 := false, buzzer := false }
  | 1 => some { led1 := false, led2 := true, led3 := false, buzzer := false }
  | 2 => some { led1 := false, led2 := false, led3 := true, buzzer := true }
  | _ => none

/-- The `switch (posture_state)` of the `Bluetooth` task choosing
`estado_texto`. -/
def estado_texto (s : Nat) : String :=
  match s with
  | 0 => "Correcta"
  | 1 => "Incorrecta-Advertencia"
  | 2 => "Incorrecta-Alerta"
  | _ => "Desconocido"

/-- Fixed-point `%.2f` formatting of an exact rational: sign, then the value rounded
to the nearest hundredth printed with exactly two fractional digits
(all telemetry values in the claims are exact hundredths, for which the
C float formatting agrees with this exact model). -/
def fmt2 (q : ℚ) : String :=
  let sign := if q < 0 then "-" else ""
  let n := (round (|q| * 100) : ℤ).toNat
  let ip := n / 100
  let fp := n % 100
  sign ++ toString ip ++ "." ++ (if fp < 10 then "0" else "") ++ toString fp

/-- The `snprintf` of the `Bluetooth` task: one iteration's payload
`"*X%.2fg\n*Y%.2fg\n*Z%.2fg\n*A%.2f\n*E%s\n"` applied to the current
reading and the state label. -/
def bluetoothLine (ax ay az angulo : ℚ) (state : Nat) : String :=
  "*X" ++ fmt2 ax ++ "g\n" ++ "*Y" ++ fmt2 ay ++ "g\n" ++ "*Z" ++ fmt2 az ++ "g\n"
    ++ "*A" ++ fmt2 angulo ++ "\n" ++ "*E" ++ estado_texto state ++ "\n"

/-! ## Classifier lemmas -/

/-- An evaluation tick with `fabs(angulo)` over the threshold, when the
addition to `bad_posture_time` does not overflow: the duration grows by
one period and the state escalates by the two time comparisons. -/
theorem procesarStep_over (a : ℚ) (s : PosturaState)
    (h : |a| > UMBRAL_INCLINACION)
    (hlt : s.bad_posture_time + PERIODO_MUESTREO_AC < UINT32_MOD) :
    ProcesarPosturaStep true a s =
      (if s.bad_posture_time + PERIODO_MUESTREO_AC ≥ TIEMPO_ALERTA then
        ⟨2, s.bad_posture_time + PERIODO_MUESTREO_AC⟩
      else if s.bad_posture_time + PERIODO_MUESTREO_AC ≥ TIEMPO_ADVERTENCIA then
        ⟨1, s.bad_posture_time + PERIODO_MUESTREO_AC⟩
      else ⟨s.posture_state, s.bad_posture_time + PERIODO_MUESTREO_AC⟩) := by
  unfold ProcesarPosturaStep
  simp [h, Nat.mod_eq_of_lt hlt]

/-- An evaluation tick with `fabs(angulo)` at or under the threshold
resets the shared state to `(0, 0)`. -/
theorem procesarStep_under (a : ℚ) (s : PosturaState)
    (h : ¬ |a| > UMBRAL_INCLINACION) :
    ProcesarPosturaStep true a s = ⟨0, 0⟩ := by
  unfold ProcesarPosturaStep
  simp [h]

/-- C1: with threshold 12.0°, warning 3000 ms, alert 5000 ms and tick
period 1000 ms, starting from `Correct` with duration 0, five
consecutive over-threshold ticks produce the state sequence
`Correct, Correct, Warning, Warning, Alert`, and one further tick at or
under the threshold resets the state to `Correct` with duration 0. -/
theorem posture_sequence_five_over_then_reset
    (a1 a2 a3 a4 a5 a6 : ℚ)
    (h1 : |a1| > UMBRAL_INCLINACION) (h2 : |a2| > UMBRAL_INCLINACION)
    (h3 : |a3| > UMBRAL_INCLINACION) (h4 : |a4| > UMBRAL_INCLINACION)
    (h5 : |a5| > UMBRAL_INCLINACION) (h6 : ¬ |a6| > UMBRAL_INCLINACION) :
    (procesarRun [a1]).posture_state = 0 ∧
    (procesarRun [a1, a2]).posture_state = 0 ∧
    (procesarRun [a1, a2, a3]).posture_state = 1 ∧
    (procesarRun [a1, a2, a3, a4]).posture_state = 1 ∧
    (procesarRun [a1, a2, a3, a4, a5]).posture_state = 2 ∧
    procesarRun [a1, a2, a3, a4, a5, a6] = posturaInit := by
  have e1 : ProcesarPosturaStep true a1 posturaInit = ⟨0, 1000⟩ := by
    rw [procesarStep_over a1 _ h1 (by decide)]; decide
  have e2 : ProcesarPosturaStep true a2 ⟨0, 1000⟩ = ⟨0, 2000⟩ := by
    rw [procesarStep_over a2 _ h2 (by decide)]; decide
  have e3 : ProcesarPosturaStep true a3 ⟨0, 2000⟩ = ⟨1, 3000⟩ := by
    rw [procesarStep_over a3 _ h3 (by decide)]; decide
  have e4 : ProcesarPosturaStep true a4 ⟨1, 3000⟩ = ⟨1, 4000⟩ := by
    rw [procesarStep_over a4 _ h4 (by decide)]; decide
  have e5 : ProcesarPosturaStep true a5 ⟨1, 4000⟩ = ⟨2, 5000⟩ := by
    rw [procesarStep_over a5 _ h5 (by decide)]; decide
  have e6 : ProcesarPosturaStep true a6 ⟨2, 5000⟩ = ⟨0, 0⟩ :=
    procesarStep_under a6 _ h6
  simp only [procesarRun, List.foldl_cons, List.foldl_nil, e1, e2, e3, e4, e5, e6]
  exact ⟨trivial, trivial, trivial, trivial, trivial, rfl⟩

/-- Witness for C1 at angles `13, 13, 13, 13, 13, 0`. -/
theorem posture_sequence_five_over_then_reset_witness :
    (procesarRun [13]).posture_state = 0 ∧
    (procesarRun [13, 13]).posture_state = 0 ∧
    (procesarRun [13, 13, 13]).posture_state = 1 ∧
    (procesarRun [13, 13, 13, 13]).posture_state = 1 ∧
    (procesarRun [13, 13, 13, 13, 13]).posture_state = 2 ∧
    procesarRun [13, 13, 13, 13, 13, 0] = posturaInit :=
  posture_sequence_five_over_then_reset 13 13 13 13 13 0
    (by decide) (by decide) (by decide) (by decide) (by decide) (by decide)

/-- C7: an evaluation tick whose angle equals the threshold exactly does
not accumulate bad-posture time: because the comparison
`fabs(angulo) > UMBRAL_INCLINACION` is strict, the tick takes the else
branch, resetting the duration to 0 and the state to `Correct`, from
every starting state. -/
theorem threshold_boundary_resets (s : PosturaState) :
    ProcesarPosturaStep true UMBRAL_INCLINACION s = ⟨0, 0⟩ :=
  procesarStep_under UMBRAL_INCLINACION s (by decide)

/-- Witness for C7 at the state `(Warning, 4000 ms)`. -/
theorem threshold_boundary_resets_witness :
    ProcesarPosturaStep true UMBRAL_INCLINACION ⟨1, 4000⟩ = ⟨0, 0⟩ :=
  threshold_boundary_resets ⟨1, 4000⟩

/-- C6: the smoothing filter computes
`smoothed = 0.8 * previous + 0.2 * raw`; the sampler task applies it to
each of the three axes independently (in every branch of its body); and
it is idempotent at steady state: constant raw input `c` with previous
smoothed value `c` yields `c` again. -/
theorem filtro_linear_and_idempotent :
    (∀ nuevo previo : ℚ, FiltroSuavizado nuevo previo = 0.8 * previo + 0.2 * nuevo) ∧
    (∀ (hz : Nat) (anguloFn : ℚ × ℚ × ℚ → ℚ × ℚ × ℚ → ℚ)
        (start_time now : Nat) (raw : ℚ × ℚ × ℚ) (s : SamplerState),
      (LeerAcelerometroStep hz anguloFn start_time now raw s).datos_ax
          = FiltroSuavizado raw.1 s.datos_ax ∧
      (LeerAcelerometroStep hz anguloFn start_time now raw s).datos_ay
          = FiltroSuavizado raw.2.1 s.datos_ay ∧
      (LeerAcelerometroStep hz anguloFn start_time now raw s).datos_az
          = FiltroSuavizado raw.2.2 s.datos_az) ∧
    (∀ c : ℚ, FiltroSuavizado c c = c) := by
  refine ⟨fun nuevo previo => rfl, ?_, fun c => by unfold FiltroSuavizado; ring⟩
  intro hz anguloFn start_time now raw s
  unfold LeerAcelerometroStep
  split
  · split
    · exact ⟨rfl, rfl, rfl⟩
    · exact ⟨rfl, rfl, rfl⟩
  · exact ⟨rfl, rfl, rfl⟩

/-- Every classifier write to `posture_state` stores 0, 1 or 2, so
along any run the state stays at most 2. -/
theorem procesar_state_le (l : List (Bool × ℚ)) :
    ∀ s : PosturaState, s.posture_state ≤ 2 →
      (l.foldl (fun s p => ProcesarPosturaStep p.1 p.2 s) s).posture_state ≤ 2 := by
  induction l with
  | nil => exact fun s h => h
  | cons p l ih =>
    intro s h
    rw [List.foldl_cons]
    apply ih
    unfold ProcesarPosturaStep
    dsimp only
    split_ifs <;> simp_all

/-- C10: from its initial value 0, `posture_state` only ever holds 0, 1
or 2 after any sequence of classifier ticks, so the `default` branch of
the indicator task's `switch` and the `"Desconocido"` label of the
telemetry task are unreachable. -/
theorem posture_state_range (l : List (Bool × ℚ)) :
    ((procesarRunC l).posture_state = 0 ∨ (procesarRunC l).posture_state = 1 ∨
      (procesarRunC l).posture_state = 2) ∧
    estado_texto (procesarRunC l).posture_state ≠ "Desconocido" ∧
    (ActualizarIndicadoresSwitch (procesarRunC l).posture_state).isSome = true := by
  have hle : (procesarRunC l).posture_state ≤ 2 :=
    procesar_state_le l posturaInit (by decide)
  set k := (procesarRunC l).posture_state with hk
  clear_value k
  interval_cases k <;> refine ⟨by omega, by decide, by decide⟩

/-- One calibrated tick preserves the state/duration correspondence,
provided the `uint32_t` addition to `bad_posture_time` cannot wrap. -/
theorem postureInv_step (a : ℚ) (s : PosturaState) (hs : postureInv s)
    (hlt : s.bad_posture_time + 1000 < 4294967296) :
    postureInv (ProcesarPosturaStep true a s) := by
  have hs' : (s.posture_state = 0 ↔ s.bad_posture_time < 3000) ∧
      (s.posture_state = 1 ↔ 3000 ≤ s.bad_posture_time ∧ s.bad_posture_time < 5000) ∧
      (s.posture_state = 2 ↔ 5000 ≤ s.bad_posture_time) := hs
  by_cases h : |a| > UMBRAL_INCLINACION
  · have e : ProcesarPosturaStep true a s =
        (if s.bad_posture_time + 1000 ≥ 5000 then ⟨2, s.bad_posture_time + 1000⟩
         else if s.bad_posture_time + 1000 ≥ 3000 then ⟨1, s.bad_posture_time + 1000⟩
         else ⟨s.posture_state, s.bad_posture_time + 1000⟩) :=
      procesarStep_over a s h hlt
    rw [e]
    split_ifs with h5 h3
    · show (2 = 0 ↔ s.bad_posture_time + 1000 < 3000) ∧
          (2 = 1 ↔ 3000 ≤ s.bad_posture_time + 1000 ∧ s.bad_posture_time + 1000 < 5000) ∧
          (2 = 2 ↔ 5000 ≤ s.bad_posture_time + 1000)
      omega
    · show (1 = 0 ↔ s.bad_posture_time + 1000 < 3000) ∧
          (1 = 1 ↔ 3000 ≤ s.bad_posture_time + 1000 ∧ s.bad_posture_time + 1000 < 5000) ∧
          (1 = 2 ↔ 5000 ≤ s.bad_posture_time + 1000)
      omega
    · show (s.posture_state = 0 ↔ s.bad_posture_time + 1000 < 3000) ∧
          (s.posture_state = 1 ↔ 3000 ≤ s.bad_posture_time + 1000 ∧
            s.bad_posture_time + 1000 < 5000) ∧
          (s.posture_state = 2 ↔ 5000 ≤ s.bad_posture_time + 1000)
      omega
  · rw [procesarStep_under a s h]
    decide

/-- On a calibrated over-threshold tick without overflow, the duration
grows by exactly one period, whichever state results. -/
theorem procesarStep_over_time (a : ℚ) (s : PosturaState)
    (h : |a| > UMBRAL_INCLINACION)
    (hlt : s.bad_posture_time + 1000 < 4294967296) :
    (ProcesarPosturaStep true a s).bad_posture_time = s.bad_posture_time + 1000 := by
  rw [procesarStep_over a s h hlt]
  split_ifs <;> rfl

/-- Preservation of the state/duration correspondence along a run, as
long as the `uint32_t` additions to `bad_posture_time` cannot wrap:
the stated bound provides headroom for one period per remaining
over-threshold tick. -/
theorem postureInv_foldl (l : List ℚ) :
    ∀ s : PosturaState, postureInv s →
      s.bad_posture_time + 1000 * overCount l < 4294967296 →
      postureInv (l.foldl (fun s a => ProcesarPosturaStep true a s) s) := by
  induction l with
  | nil => exact fun s hs _ => hs
  | cons a l ih =>
    intro s hs hb
    rw [List.foldl_cons]
    by_cases h : |a| > UMBRAL_INCLINACION
    · have hc : overCount (a :: l) = overCount l + 1 := by
        unfold overCount
        rw [List.countP_cons]
        simp [h]
      rw [hc] at hb
      have hlt : s.bad_posture_time + 1000 < 4294967296 := by omega
      refine ih _ (postureInv_step a s hs hlt) ?_
      rw [procesarStep_over_time a s h hlt]
      omega
    · have hc : overCount (a :: l) = overCount l := by
        unfold overCount
        rw [List.countP_cons]
        simp [h]
      rw [hc] at hb
      rw [procesarStep_under a s h]
      refine ih _ (by decide) ?_
      show (0 : Nat) + 1000 * overCount l < 4294967296
      omega

/-- C9 (amended): starting from `(Correct, 0)`, after every sequence of
evaluation ticks containing at most 4294967 over-threshold ticks — that
is, before the `uint32_t` duration counter can overflow — the pair
`(posture_state, bad_posture_time)` satisfies: `Correct` iff
duration < 3000 ms, `Warning` iff 3000 ms ≤ duration < 5000 ms, and
`Alert` iff duration ≥ 5000 ms. -/
theorem posture_inv_amended (l : List ℚ) (h : overCount l ≤ 4294967) :
    postureInv (procesarRun l) := by
  unfold procesarRun
  apply postureInv_foldl
  · decide
  · show (0 : Nat) + 1000 * overCount l < 4294967296
    omega

/-- Witness for the amended C9 on a short concrete run. -/
theorem posture_inv_amended_witness :
    overCount [13, 13, 13, 13, 13, 13, 0] ≤ 4294967 ∧
    postureInv (procesarRun [13, 13, 13, 13, 13, 13, 0]) :=
  ⟨by decide, posture_inv_amended [13, 13, 13, 13, 13, 13, 0] (by decide)⟩

/-- Running `n` consecutive over-threshold ticks (angle 13°) from the initial
state, for `5 ≤ n` within the overflow-free range, leave the classifier
in `Alert` with duration `1000 * n` ms. -/
theorem procesarRun_replicate_over (n : Nat) (h5 : 5 ≤ n) (hle : n ≤ 4294967) :
    procesarRun (List.replicate n (13 : ℚ)) = ⟨2, PERIODO_MUESTREO_AC * n⟩ := by
  induction n with
  | zero => omega
  | succ n ih =>
    rcases Nat.lt_or_ge n 5 with hn | hn
    · have h4 : n = 4 := by omega
      subst h4
      decide
    · have e := ih hn (by omega)
      rw [List.replicate_succ']
      unfold procesarRun at e ⊢
      rw [List.foldl_append, e, List.foldl_cons, List.foldl_nil]
      rw [procesarStep_over 13 _ (by decide)
        (by unfold PERIODO_MUESTREO_AC UINT32_MOD; simp only; omega)]
      rw [if_pos (by unfold PERIODO_MUESTREO_AC TIEMPO_ALERTA; simp only; omega)]
      simp only [PosturaState.mk.injEq, true_and]
      unfold PERIODO_MUESTREO_AC
      ring

/-- C9 (counterexample to the unamended claim): after 4294968
consecutive over-threshold evaluation ticks the `uint32_t` duration
counter wraps around to 704 ms while the state remains `Alert`, so the
claimed equivalence between state and duration fails. -/
theorem posture_inv_violation :
    ¬ postureInv (procesarRun (List.replicate 4294968 (13 : ℚ))) := by
  have e : procesarRun (List.replicate 4294967 (13 : ℚ)) = ⟨2, 4294967000⟩ := by
    have h := procesarRun_replicate_over 4294967 (by omega) (Nat.le_refl _)
    rw [h]
    decide
  have e2 : procesarRun (List.replicate 4294968 (13 : ℚ)) = ⟨2, 704⟩ := by
    rw [show (4294968 : Nat) = 4294967 + 1 from rfl, List.replicate_succ']
    unfold procesarRun at e ⊢
    rw [List.foldl_append, e, List.foldl_cons, List.foldl_nil]
    decide
  rw [e2]
  decide

/-! ## Sampling-period and telemetry theorems -/

/-- C4 (bug evidence): the sampler task's delay call passes
`1000 / PERIODO_MUESTREO_AC = 1` — a single scheduler tick — to
`vTaskDelay`, which differs from the tick count corresponding to the
configured 1000 ms period (`pdMS_TO_TICKS(1000) = configTICK_RATE_HZ`)
for every tick rate of at least 2 Hz.  The intended value, per the
task's own documentation, would be `pdMS_TO_TICKS(PERIODO_MUESTREO_AC)`. -/
theorem sampler_delay_bug :
    delayArg_LeerAcelerometro = 1 ∧
    ∀ hz : Nat, 2 ≤ hz →
      pdMS_TO_TICKS hz PERIODO_MUESTREO_AC ≠ delayArg_LeerAcelerometro := by
  refine ⟨rfl, fun hz h => ?_⟩
  show 1000 * hz / 1000 ≠ 1
  omega

/-- Witness for C4 at the ESP-IDF default tick rate of 100 Hz. -/
theorem sampler_delay_bug_witness :
    delayArg_LeerAcelerometro = 1 ∧
    pdMS_TO_TICKS 100 PERIODO_MUESTREO_AC ≠ delayArg_LeerAcelerometro :=
  ⟨sampler_delay_bug.1, sampler_delay_bug.2 100 (by omega)⟩

/-- C8: the telemetry task's state labels, and the exact payload for the
reading `(ax = 1.23, ay = -0.50, az = 9.81, angle = 15.00)` in state 2
(`Alert`): five asterisk-prefixed newline-terminated lines with
two-decimal-place values. -/
theorem bluetooth_line_format :
    estado_texto 0 = "Correcta" ∧
    estado_texto 1 = "Incorrecta-Advertencia" ∧
    estado_texto 2 = "Incorrecta-Alerta" ∧
    estado_texto 3 = "Desconocido" ∧
    bluetoothLine 1.23 (-0.50) 9.81 15.00 2 =
      "*X1.23g\n*Y-0.50g\n*Z9.81g\n*A15.00\n*EIncorrecta-Alerta\n" := by
  refine ⟨rfl, rfl, rfl, rfl, ?_⟩
  have hx : fmt2 (1.23 : ℚ) = "1.23" := by
    unfold fmt2
    rw [if_neg (by norm_num), abs_of_nonneg (by norm_num : (0 : ℚ) ≤ 1.23)]
    rw [show round ((1.23 : ℚ) * 100) = 123 by norm_num [round_eq]]
    rfl
  have hy : fmt2 (-0.50 : ℚ) = "-0.50" := by
    unfold fmt2
    rw [if_pos (by norm_num), abs_of_nonpos (by norm_num : (-0.50 : ℚ) ≤ 0)]
    rw [show round (-(-0.50 : ℚ) * 100) = 50 by norm_num [round_eq]]
    rfl
  have hza : fmt2 (9.81 : ℚ) = "9.81" := by
    unfold fmt2
    rw [if_neg (by norm_num), abs_of_nonneg (by norm_num : (0 : ℚ) ≤ 9.81)]
    rw [show round ((9.81 : ℚ) * 100) = 981 by norm_num [round_eq]]
    rfl
  have ha : fmt2 (15.00 : ℚ) = "15.00" := by
    unfold fmt2
    rw [if_neg (by norm_num), abs_of_nonneg (by norm_num : (0 : ℚ) ≤ 15.00)]
    rw [show round ((15.00 : ℚ) * 100) = 1500 by norm_num [round_eq]]
    rfl
  unfold bluetoothLine
  rw [hx, hy, hza, ha]
  rfl

/-! ## Sampler / calibration lemmas -/

/-- A not-yet-calibrated iteration whose calibration window has elapsed
finalizes: it accumulates the freshly smoothed sample, increments
`muestras`, sets the reference vector to `suma / muestras` per axis and
sets `calibrado`. -/
theorem samplerStep_uncal_final (hz : Nat) (anguloFn : ℚ × ℚ × ℚ → ℚ × ℚ × ℚ → ℚ)
    (start_time now : Nat) (raw : ℚ × ℚ × ℚ) (s : SamplerState)
    (h : s.calibrado = false)
    (he : now - start_time ≥ pdMS_TO_TICKS hz TIEMPO_CALIBRACION) :
    LeerAcelerometroStep hz anguloFn start_time now raw s =
      { datos_ax := FiltroSuavizado raw.1 s.datos_ax,
        datos_ay := FiltroSuavizado raw.2.1 s.datos_ay,
        datos_az := FiltroSuavizado raw.2.2 s.datos_az,
        angulo := s.angulo,
        suma_x := s.suma_x + FiltroSuavizado raw.1 s.datos_ax,
        suma_y := s.suma_y + FiltroSuavizado raw.2.1 s.datos_ay,
        suma_z := s.suma_z + FiltroSuavizado raw.2.2 s.datos_az,
        muestras := (s.muestras + 1) % UINT16_MOD,
        base_x := (s.suma_x + FiltroSuavizado raw.1 s.datos_ax) /
          (((s.muestras + 1) % UINT16_MOD : Nat) : ℚ),
        base_y := (s.suma_y + FiltroSuavizado raw.2.1 s.datos_ay) /
          (((s.muestras + 1) % UINT16_MOD : Nat) : ℚ),
        base_z := (s.suma_z + FiltroSuavizado raw.2.2 s.datos_az) /
          (((s.muestras + 1) % UINT16_MOD : Nat) : ℚ),
        calibrado := true } := by
  simp only [LeerAcelerometroStep, h, he]
  simp

/-- A not-yet-calibrated iteration whose calibration window has not
elapsed accumulates the smoothed sample and increments `muestras`, but
leaves the reference vector and the `calibrado` flag untouched. -/
theorem samplerStep_uncal_nofinal (hz : Nat) (anguloFn : ℚ × ℚ × ℚ → ℚ × ℚ × ℚ → ℚ)
    (start_time now : Nat) (raw : ℚ × ℚ × ℚ) (s : SamplerState)
    (h : s.calibrado = false)
    (he : ¬ now - start_time ≥ pdMS_TO_TICKS hz TIEMPO_CALIBRACION) :
    LeerAcelerometroStep hz anguloFn start_time now raw s =
      { datos_ax := FiltroSuavizado raw.1 s.datos_ax,
        datos_ay := FiltroSuavizado raw.2.1 s.datos_ay,
        datos_az := FiltroSuavizado raw.2.2 s.datos_az,
        angulo := s.angulo,
        suma_x := s.suma_x + FiltroSuavizado raw.1 s.datos_ax,
        suma_y := s.suma_y + FiltroSuavizado raw.2.1 s.datos_ay,
        suma_z := s.suma_z + FiltroSuavizado raw.2.2 s.datos_az,
        muestras := (s.muestras + 1) % UINT16_MOD,
        base_x := s.base_x, base_y := s.base_y, base_z := s.base_z,
        calibrado := false } := by
  simp only [LeerAcelerometroStep, h, he]
  simp

/-- Once `calibrado` is set it stays set: a calibrated iteration leaves
the flag, the accumulator and the reference vector unchanged. -/
theorem samplerStep_cal (hz : Nat) (anguloFn : ℚ × ℚ × ℚ → ℚ × ℚ × ℚ → ℚ)
    (start_time now : Nat) (raw : ℚ × ℚ × ℚ) (s : SamplerState)
    (h : s.calibrado = true) :
    (LeerAcelerometroStep hz anguloFn start_time now raw s).calibrado = true := by
  simp only [LeerAcelerometroStep, h]
  simp

/-- If an iteration leaves the sampler uncalibrated, it was already
uncalibrated before and its calibration-window test failed. -/
theorem samplerRun_uncal_prev (hz : Nat) (anguloFn : ℚ × ℚ × ℚ → ℚ × ℚ × ℚ → ℚ)
    (start_time : Nat) (raws : Nat → ℚ × ℚ × ℚ) (ticks : Nat → Nat) (n : Nat)
    (h : (LeerAcelerometroRun hz anguloFn start_time raws ticks (n + 1)).calibrado = false) :
    (LeerAcelerometroRun hz anguloFn start_time raws ticks n).calibrado = false ∧
    ¬ ticks n - start_time ≥ pdMS_TO_TICKS hz TIEMPO_CALIBRACION := by
  cases hc : (LeerAcelerometroRun hz anguloFn start_time raws ticks n).calibrado with
  | false =>
    refine ⟨rfl, fun he => ?_⟩
    rw [show LeerAcelerometroRun hz anguloFn start_time raws ticks (n + 1) =
        LeerAcelerometroStep hz anguloFn start_time (ticks n) (raws n)
          (LeerAcelerometroRun hz anguloFn start_time raws ticks n) from rfl,
      samplerStep_uncal_final hz anguloFn start_time (ticks n) (raws n) _ hc he] at h
    exact absurd h (by simp)
  | true =>
    rw [show LeerAcelerometroRun hz anguloFn start_time raws ticks (n + 1) =
        LeerAcelerometroStep hz anguloFn start_time (ticks n) (raws n)
          (LeerAcelerometroRun hz anguloFn start_time raws ticks n) from rfl,
      samplerStep_cal hz anguloFn start_time (ticks n) (raws n) _ hc] at h
    exact absurd h (by simp)

/-- While the sampler is uncalibrated, `muestras` counts exactly the
iterations performed (mod `2^16`). -/
theorem samplerRun_muestras (hz : Nat) (anguloFn : ℚ × ℚ × ℚ → ℚ × ℚ × ℚ → ℚ)
    (start_time : Nat) (raws : Nat → ℚ × ℚ × ℚ) (ticks : Nat → Nat) :
    ∀ n : Nat,
      (LeerAcelerometroRun hz anguloFn start_time raws ticks n).calibrado = false →
      (LeerAcelerometroRun hz anguloFn start_time raws ticks n).muestras = n % UINT16_MOD := by
  intro n
  induction n with
  | zero => exact fun _ => rfl
  | succ n ih =>
    intro h
    obtain ⟨hn, he⟩ := samplerRun_uncal_prev hz anguloFn start_time raws ticks n h
    have ihm := ih hn
    rw [show LeerAcelerometroRun hz anguloFn start_time raws ticks (n + 1) =
        LeerAcelerometroStep hz anguloFn start_time (ticks n) (raws n)
          (LeerAcelerometroRun hz anguloFn start_time raws ticks n) from rfl,
      samplerStep_uncal_nofinal hz anguloFn start_time (ticks n) (raws n) _ hn he]
    show ((LeerAcelerometroRun hz anguloFn start_time raws ticks n).muestras + 1)
        % UINT16_MOD = (n + 1) % UINT16_MOD
    rw [ihm]
    show (n % 65536 + 1) % 65536 = (n + 1) % 65536
    omega

/-- With a monotone tick counter (each loop iteration advances it by at
least one tick), iteration `i` sees at least `i` ticks past the first
reading. -/
theorem ticks_lower_bound (ticks : Nat → Nat)
    (hmono : ∀ i, ticks i + 1 ≤ ticks (i + 1)) :
    ∀ i : Nat, ticks 0 + i ≤ ticks i := by
  intro i
  induction i with
  | zero => omega
  | succ i ih =>
    have := hmono i
    omega

/-- Under monotone time, the sampler cannot remain uncalibrated for more
than `pdMS_TO_TICKS(TIEMPO_CALIBRACION)` iterations: every later
iteration's window test succeeds. -/
theorem samplerRun_uncal_le (hz : Nat) (anguloFn : ℚ × ℚ × ℚ → ℚ × ℚ × ℚ → ℚ)
    (start_time : Nat) (raws : Nat → ℚ × ℚ × ℚ) (ticks : Nat → Nat)
    (hmono : ∀ i, ticks i + 1 ≤ ticks (i + 1)) (hstart : start_time ≤ ticks 0)
    (n : Nat)
    (h : (LeerAcelerometroRun hz anguloFn start_time raws ticks n).calibrado = false) :
    n ≤ pdMS_TO_TICKS hz TIEMPO_CALIBRACION := by
  cases n with
  | zero => exact Nat.zero_le _
  | succ n =>
    obtain ⟨hn, he⟩ := samplerRun_uncal_prev hz anguloFn start_time raws ticks n h
    have hl := ticks_lower_bound ticks hmono n
    omega

/-- C3: calibration finalization never divides by a zero sample count.
Under monotone tick time (`hmono`, `hstart`) and any tick rate whose
calibration window fits the `uint16_t` counter (`hhz`), if iteration `n`
still finds the sampler uncalibrated and its window test succeeds, then
the finalization performed by that iteration uses a sample count of at
least 1 — structurally, `muestras` is incremented before the division —
and the reference vector it stores is `suma / muestras` with that
non-zero count. -/
theorem calibration_no_div_by_zero
    (hz : Nat) (anguloFn : ℚ × ℚ × ℚ → ℚ × ℚ × ℚ → ℚ) (start_time : Nat)
    (raws : Nat → ℚ × ℚ × ℚ) (ticks : Nat → Nat) (n : Nat)
    (hmono : ∀ i, ticks i + 1 ≤ ticks (i + 1)) (hstart : start_time ≤ ticks 0)
    (hhz : pdMS_TO_TICKS hz TIEMPO_CALIBRACION ≤ 65534)
    (hcal : (LeerAcelerometroRun hz anguloFn start_time raws ticks n).calibrado = false)
    (helapsed : ticks n - start_time ≥ pdMS_TO_TICKS hz TIEMPO_CALIBRACION) :
    (LeerAcelerometroRun hz anguloFn start_time raws ticks (n + 1)).calibrado = true ∧
    1 ≤ (LeerAcelerometroRun hz anguloFn start_time raws ticks (n + 1)).muestras ∧
    (LeerAcelerometroRun hz anguloFn start_time raws ticks (n + 1)).base_x =
      (LeerAcelerometroRun hz anguloFn start_time raws ticks (n + 1)).suma_x /
        ((LeerAcelerometroRun hz anguloFn start_time raws ticks (n + 1)).muestras : ℚ) ∧
    (LeerAcelerometroRun hz anguloFn start_time raws ticks (n + 1)).base_y =
      (LeerAcelerometroRun hz anguloFn start_time raws ticks (n + 1)).suma_y /
        ((LeerAcelerometroRun hz anguloFn start_time raws ticks (n + 1)).muestras : ℚ) ∧
    (LeerAcelerometroRun hz anguloFn start_time raws ticks (n + 1)).base_z =
      (LeerAcelerometroRun hz anguloFn start_time raws ticks (n + 1)).suma_z /
        ((LeerAcelerometroRun hz anguloFn start_time raws ticks (n + 1)).muestras : ℚ) := by
  have hle : n ≤ pdMS_TO_TICKS hz TIEMPO_CALIBRACION :=
    samplerRun_uncal_le hz anguloFn start_time raws ticks hmono hstart n hcal
  have hm : (LeerAcelerometroRun hz anguloFn start_time raws ticks n).muestras
      = n % UINT16_MOD :=
    samplerRun_muestras hz anguloFn start_time raws ticks n hcal
  have hm' : (LeerAcelerometroRun hz anguloFn start_time raws ticks n).muestras = n := by
    rw [hm]
    show n % 65536 = n
    omega
  have e : LeerAcelerometroRun hz anguloFn start_time raws ticks (n + 1) =
      LeerAcelerometroStep hz anguloFn start_time (ticks n) (raws n)
        (LeerAcelerometroRun hz anguloFn start_time raws ticks n) := rfl
  rw [e, samplerStep_uncal_final hz anguloFn start_time (ticks n) (raws n) _ hcal helapsed]
  refine ⟨rfl, ?_, rfl, rfl, rfl⟩
  show 1 ≤ ((LeerAcelerometroRun hz anguloFn start_time raws ticks n).muestras + 1)
      % UINT16_MOD
  rw [hm']
  show 1 ≤ (n + 1) % 65536
  omega

/-- Witness for C3: tick rate 1 Hz, complete ticks `0,1,2,…`,
finalization at iteration 3 (window of 3 ticks). -/
theorem calibration_no_div_by_zero_witness :
    (LeerAcelerometroRun 1 (fun _ _ => 0) 0 (fun _ => (0, 0, 0)) (fun i => i) 4).calibrado
        = true ∧
    1 ≤ (LeerAcelerometroRun 1 (fun _ _ => 0) 0 (fun _ => (0, 0, 0)) (fun i => i) 4).muestras ∧
    (LeerAcelerometroRun 1 (fun _ _ => 0) 0 (fun _ => (0, 0, 0)) (fun i => i) 4).base_x =
      (LeerAcelerometroRun 1 (fun _ _ => 0) 0 (fun _ => (0, 0, 0)) (fun i => i) 4).suma_x /
        ((LeerAcelerometroRun 1 (fun _ _ => 0) 0 (fun _ => (0, 0, 0)) (fun i => i) 4).muestras : ℚ) ∧
    (LeerAcelerometroRun 1 (fun _ _ => 0) 0 (fun _ => (0, 0, 0)) (fun i => i) 4).base_y =
      (LeerAcelerometroRun 1 (fun _ _ => 0) 0 (fun _ => (0, 0, 0)) (fun i => i) 4).suma_y /
        ((LeerAcelerometroRun 1 (fun _ _ => 0) 0 (fun _ => (0, 0, 0)) (fun i => i) 4).muestras : ℚ) ∧
    (LeerAcelerometroRun 1 (fun _ _ => 0) 0 (fun _ => (0, 0, 0)) (fun i => i) 4).base_z =
      (LeerAcelerometroRun 1 (fun _ _ => 0) 0 (fun _ => (0, 0, 0)) (fun i => i) 4).suma_z /
        ((LeerAcelerometroRun 1 (fun _ _ => 0) 0 (fun _ => (0, 0, 0)) (fun i => i) 4).muestras : ℚ) :=
  calibration_no_div_by_zero 1 (fun _ _ => 0) 0 (fun _ => (0, 0, 0)) (fun i => i) 3
    (fun i => Nat.le_refl _) (Nat.le_refl 0) (by decide) (by decide) (by decide)

/-- C5: if calibration finalizes on an iteration whose accumulator holds
the sums of the previously accumulated smoothed samples, then the
reference vector stored at that step is the arithmetic mean, per axis,
of all accumulated smoothed samples (the previous ones plus this
iteration's freshly smoothed sample `nuevo`), the sample count `N` is at
least 1, and `calibrado` is set at the same step. -/
theorem calibration_mean
    (hz : Nat) (anguloFn : ℚ × ℚ × ℚ → ℚ × ℚ × ℚ → ℚ) (start_time now : Nat)
    (raw : ℚ × ℚ × ℚ) (s : SamplerState) (samples : List (ℚ × ℚ × ℚ))
    (nuevo : ℚ × ℚ × ℚ)
    (hcal : s.calibrado = false)
    (hsx : s.suma_x = (samples.map fun p => p.1).sum)
    (hsy : s.suma_y = (samples.map fun p => p.2.1).sum)
    (hsz : s.suma_z = (samples.map fun p => p.2.2).sum)
    (hm : s.muestras = samples.length)
    (hlen : samples.length + 1 < UINT16_MOD)
    (hnuevo : nuevo = (FiltroSuavizado raw.1 s.datos_ax,
      FiltroSuavizado raw.2.1 s.datos_ay, FiltroSuavizado raw.2.2 s.datos_az))
    (he : now - start_time ≥ pdMS_TO_TICKS hz TIEMPO_CALIBRACION) :
    (LeerAcelerometroStep hz anguloFn start_time now raw s).calibrado = true ∧
    1 ≤ (samples ++ [nuevo]).length ∧
    (LeerAcelerometroStep hz anguloFn start_time now raw s).base_x =
      ((samples ++ [nuevo]).map fun p => p.1).sum / ((samples ++ [nuevo]).length : ℚ) ∧
    (LeerAcelerometroStep hz anguloFn start_time now raw s).base_y =
      ((samples ++ [nuevo]).map fun p => p.2.1).sum / ((samples ++ [nuevo]).length : ℚ) ∧
    (LeerAcelerometroStep hz anguloFn start_time now raw s).base_z =
      ((samples ++ [nuevo]).map fun p => p.2.2).sum / ((samples ++ [nuevo]).length : ℚ) := by
  have hmod : (samples.length + 1) % UINT16_MOD = samples.length + 1 :=
    Nat.mod_eq_of_lt hlen
  rw [samplerStep_uncal_final hz anguloFn start_time now raw s hcal he]
  refine ⟨rfl, by simp, ?_, ?_, ?_⟩ <;>
    simp only [hsx, hsy, hsz, hm, hmod, hnuevo, List.map_append, List.sum_append,
      List.length_append, List.map_cons, List.map_nil, List.sum_cons, List.sum_nil,
      List.length_cons, List.length_nil] <;>
    push_cast <;>
    ring_nf

/-- Witness for C5: finalization from the initial state with the single
raw sample `(1, 2, 3)`, whose smoothed value is `(1/5, 2/5, 3/5)`. -/
theorem calibration_mean_witness :
    (LeerAcelerometroStep 1 (fun _ _ => 0) 0 3 (1, 2, 3) samplerInit).calibrado = true ∧
    1 ≤ (([] : List (ℚ × ℚ × ℚ)) ++ [((1 : ℚ)/5, (2 : ℚ)/5, (3 : ℚ)/5)]).length ∧
    (LeerAcelerometroStep 1 (fun _ _ => 0) 0 3 (1, 2, 3) samplerInit).base_x =
      (((([] : List (ℚ × ℚ × ℚ)) ++ [((1 : ℚ)/5, (2 : ℚ)/5, (3 : ℚ)/5)]).map fun p => p.1).sum) /
        (((([] : List (ℚ × ℚ × ℚ)) ++ [((1 : ℚ)/5, (2 : ℚ)/5, (3 : ℚ)/5)]).length : ℚ)) ∧
    (LeerAcelerometroStep 1 (fun _ _ => 0) 0 3 (1, 2, 3) samplerInit).base_y =
      (((([] : List (ℚ × ℚ × ℚ)) ++ [((1 : ℚ)/5, (2 : ℚ)/5, (3 : ℚ)/5)]).map fun p => p.2.1).sum) /
        (((([] : List (ℚ × ℚ × ℚ)) ++ [((1 : ℚ)/5, (2 : ℚ)/5, (3 : ℚ)/5)]).length : ℚ)) ∧
    (LeerAcelerometroStep 1 (fun _ _ => 0) 0 3 (1, 2, 3) samplerInit).base_z =
      (((([] : List (ℚ × ℚ × ℚ)) ++ [((1 : ℚ)/5, (2 : ℚ)/5, (3 : ℚ)/5)]).map fun p => p.2.2).sum) /
        (((([] : List (ℚ × ℚ × ℚ)) ++ [((1 : ℚ)/5, (2 : ℚ)/5, (3 : ℚ)/5)]).length : ℚ)) :=
  calibration_mean 1 (fun _ _ => 0) 0 3 (1, 2, 3) samplerInit []
    ((1 : ℚ)/5, (2 : ℚ)/5, (3 : ℚ)/5) rfl (by simp [samplerInit]) (by simp [samplerInit])
    (by simp [samplerInit]) rfl (by decide)
    (by norm_num [FiltroSuavizado, samplerInit]) (by decide)

/-! ## Angle-range theorems -/

/-- C2 (counterexample to the stated range): with reference vector
`(1, 0, 0)` and current vector `(-1, 0, 0)` — both of magnitude 1 — the
computed deviation angle exceeds 180°, because the code converts
`acos` radians to degrees with the approximation `180 / 3.14159`
instead of `180 / π`, and `acos(-1) = π > 3.14159`. -/
theorem angle_range_violation :
    CalcularAnguloDesviacion 1 0 0 (-1) 0 0 > 180 := by
  have e : CalcularAnguloDesviacion 1 0 0 (-1) 0 0 = Real.pi * (180 / 3.14159) := by
    unfold CalcularAnguloDesviacion
    dsimp only
    norm_num [Real.sqrt_one]
  rw [e]
  have hpi : (3.14159 : ℝ) < Real.pi := by
    have := Real.pi_gt_d6
    norm_num at this ⊢
    linarith
  have hk : (0 : ℝ) < 180 / 3.14159 := by norm_num
  nlinarith

/-- C2 (amended): for all reference and current vectors of non-zero
magnitude, the computed angle lies in the interval
`[0°, π × (180 / 3.14159)°]` — that is, `[0°, ≈180.00015°]`: the lower
bound of the original claim holds, and the upper bound holds only after
widening 180° by the factor `π / 3.14159` introduced by the code's
approximate radian-to-degree conversion. -/
theorem angle_range_amended (base_x base_y base_z ax ay az : ℝ)
    (hbase : Real.sqrt (base_x * base_x + base_y * base_y + base_z * base_z) ≠ 0)
    (hactual : Real.sqrt (ax * ax + ay * ay + az * az) ≠ 0) :
    0 ≤ CalcularAnguloDesviacion base_x base_y base_z ax ay az ∧
    CalcularAnguloDesviacion base_x base_y base_z ax ay az
      ≤ Real.pi * (180 / 3.14159) := by
  unfold CalcularAnguloDesviacion
  constructor
  · exact mul_nonneg (Real.arccos_nonneg _) (by norm_num)
  · exact mul_le_mul_of_nonneg_right (Real.arccos_le_pi _) (by norm_num)

/-- Witness for the amended C2 at reference `(1, 0, 0)` and current
vector `(0, 1, 0)`, both of magnitude 1. -/
theorem angle_range_amended_witness :
    Real.sqrt ((1 : ℝ) * 1 + 0 * 0 + 0 * 0) ≠ 0 ∧
    Real.sqrt ((0 : ℝ) * 0 + 1 * 1 + 0 * 0) ≠ 0 ∧
    (0 ≤ CalcularAnguloDesviacion 1 0 0 0 1 0 ∧
      CalcularAnguloDesviacion 1 0 0 0 1 0 ≤ Real.pi * (180 / 3.14159)) := by
  have h1 : Real.sqrt ((1 : ℝ) * 1 + 0 * 0 + 0 * 0) ≠ 0 := by
    rw [show ((1 : ℝ) * 1 + 0 * 0 + 0 * 0) = 1 by norm_num, Real.sqrt_one]
    norm_num
  have h2 : Real.sqrt ((0 : ℝ) * 0 + 1 * 1 + 0 * 0) ≠ 0 := by
    rw [show ((0 : ℝ) * 0 + 1 * 1 + 0 * 0) = 1 by norm_num, Real.sqrt_one]
    norm_num
  exact ⟨h1, h2, angle_range_amended 1 0 0 0 1 0 h1 h2⟩

end PostureCare
